import Mathlib

/-
Shallow embedding of the post_summarizer_bot message-lifecycle and
feedback-correlation pipeline (src/main.py and src/summarizer.py).

Python dicts are modelled as association lists with replace-on-insert
semantics; external collaborators (scraper, Gemini generation call,
Langfuse telemetry) are modelled as oracle inputs that fix the outcome
of each external call, so every handler becomes a pure function of its
inputs, the shared bot state and the oracle.
-/

/-- Lookup in a python-dict model: dict.get(k) -/
def sget {α β : Type} [DecidableEq α] (l : List (α × β)) (k : α) : Option β :=
  (l.find? (fun p => decide (p.1 = k))).map (fun p => p.2)

/-- Removal of a key: dict.pop(k, None) drops the entry for k. -/
def serase {α β : Type} [DecidableEq α] (l : List (α × β)) (k : α) : List (α × β) :=
  l.filter (fun p => decide (p.1 ≠ k))

/-- Python dict assignment d[k] = v: the key now maps to v and to nothing else. -/
def sinsert {α β : Type} [DecidableEq α] (l : List (α × β)) (k : α) (v : β) : List (α × β) :=
  (k, v) :: serase l k

/-- Number of entries carrying key k; a dict model must keep this at most 1. -/
def keyCount {α β : Type} [DecidableEq α] (l : List (α × β)) (k : α) : Nat :=
  (l.filter (fun p => decide (p.1 = k))).length

/-- Python truthiness of an optional string: None and the empty string are falsy. -/
def truthyStr : Option String → Bool
  | none => false
  | some s => decide (s ≠ "")

/-- Python str() of an optional value as it appears inside an f-string. -/
def pyStr : Option String → String
  | none => "None"
  | some s => s

/-- Character-list version of: needle is an initial segment of hay. -/
def leadsWith : List Char → List Char → Bool
  | [], _ => true
  | _ :: _, [] => false
  | n :: ns, h :: hs => n == h && leadsWith ns hs

def containsSubAux (needle : List Char) : List Char → Bool
  | [] => leadsWith needle []
  | c :: rest => leadsWith needle (c :: rest) || containsSubAux needle rest

/-- Python substring test: needle in hay. -/
def containsSub (hay needle : String) : Bool :=
  containsSubAux needle.data hay.data

/-- A google.genai ServerError or ClientError as observed by _format_error:
isServer discriminates the class, code and message are the attributes,
errStr is str(e). -/
structure GenaiError where
  isServer : Bool
  code : Nat
  message : String
  errStr : String
  deriving DecidableEq

/-- An exception escaping the generate_content call: a classified genai error
or any other (unexpected) exception with its str(). -/
inductive GenException
  | genai (e : GenaiError)
  | unexpected (msg : String)
  deriving DecidableEq

/-- summarizer._format_error -/
def format_error (e : GenaiError) : String :=
  if e.isServer then
    if e.code = 503 || containsSub e.errStr.toLower "overloaded" then
      "The Gemini model is currently overloaded. Please retry in a moment."
    else
      "Gemini server error (" ++ toString e.code ++ "): " ++ e.message
  else
    if e.code = 429 || containsSub e.errStr.toLower "quota" || containsSub e.errStr.toLower "rate" then
      "Gemini API quota or rate limit exceeded. Please try again later."
    else
      "Gemini client error (" ++ toString e.code ++ "): " ++ e.message

/-- Outcome of the external generate_content call. -/
inductive GenResult
  | ok (text : String)
  | err (e : GenException)
  deriving DecidableEq

/-- Oracle fixing the outcomes of the external calls made by summarize:
traceSetup is the result of create_trace_id plus start_generation
(none means that try block raised, leaving trace_id and generation None);
genResult is the generation outcome; genEndOk tells whether the
generation.update and generation.end calls on the success path complete. -/
structure SummarizeOracle where
  traceSetup : Option String
  genResult : GenResult
  genEndOk : Bool
  deriving DecidableEq

/-- summarizer.summarize, returning (summary, error_message, trace_id).
lf tells whether a langfuse client was passed (telemetry configured). -/
def summarize (lf : Bool) (o : SummarizeOracle) :
    Option String × Option String × Option String :=
  let setup := if lf then o.traceSetup else none
  match o.genResult with
  | GenResult.ok summary =>
    match setup with
    | some tid => if o.genEndOk then (some summary, none, some tid) else (some summary, none, none)
    | none => (some summary, none, none)
  | GenResult.err (GenException.genai e) => (none, some (format_error e), none)
  | GenResult.err (GenException.unexpected m) => (none, some ("Unexpected error: " ++ m), none)

/-- Inline keyboards built by _retry_keyboard, _feedback_keyboard and
_rated_keyboard in main.py. -/
inductive Markup
  | retryKb
  | feedbackKb
  | ratedKb (wasPositive : Bool)
  deriving DecidableEq

/-- Message bodies rendered by _process_url, process_message and handle_retry;
render below reproduces the exact strings. -/
inductive Body
  | scrapingFailed (url : String)
  | summaryBody (text : String) (url : String) (tracingFailed : Bool)
  | summarizationFailed (err : String) (url : String)
  | unexpectedError (err : String) (url : String)
  | retrying (url : String)
  deriving DecidableEq

/-- The exact HTML text each body renders to in main.py. -/
def render : Body → String
  | Body.scrapingFailed url =>
      "❌ <b>Scraping Failed</b>\n\nCould not extract article content.\n\n🔗 " ++ url
  | Body.summaryBody text url tracingFailed =>
      text ++ "\n\n---\n🔗 <b><a href=\"" ++ url ++ "\">Read Full Article</a></b> ✨"
        ++ (if tracingFailed then "\n<i>⚠️ Tracing unavailable for this message.</i>" else "")
  | Body.summarizationFailed err url =>
      "❌ <b>Summarization Failed</b>\n\n" ++ err ++ "\n\n🔗 " ++ url
  | Body.unexpectedError err url =>
      "❌ <b>Unexpected Error</b>\n\n" ++ err ++ "\n\n🔗 " ++ url
  | Body.retrying url =>
      "⏳ <b>Retrying summarization...</b>\n\n🔗 " ++ url

/-- The url named in a body. -/
def bodyUrl : Body → String
  | Body.scrapingFailed url => url
  | Body.summaryBody _ url _ => url
  | Body.summarizationFailed _ url => url
  | Body.unexpectedError _ url => url
  | Body.retrying url => url

def isSuccessBody : Body → Bool
  | Body.summaryBody _ _ _ => true
  | _ => false

def isFailureBody : Body → Bool
  | Body.scrapingFailed _ => true
  | Body.summarizationFailed _ _ => true
  | Body.unexpectedError _ _ => true
  | _ => false

/-- One edit_message_text call: message edited in place to a body with
optional inline controls (passing no reply_markup clears the controls). -/
structure EditCall where
  messageId : Int
  body : Body
  markup : Option Markup
  deriving DecidableEq

/-- Oracle for one _process_url run: scrapeResult is what scrape_content
returns (None on download failure, extraction failure or exception),
so the summarize oracle. -/
structure ProcessOracle where
  scrapeResult : Option String
  so : SummarizeOracle
  deriving DecidableEq

/-- main._process_url: scrape, summarize, edit the placeholder in place.
Takes and returns the _trace_store; returns the edit it performs. -/
def process_url (lf : Bool) (url : String) (mid : Int) (ts : List (Int × String))
    (o : ProcessOracle) : List (Int × String) × EditCall :=
  if !truthyStr o.scrapeResult then
    (ts, { messageId := mid, body := Body.scrapingFailed url, markup := some Markup.retryKb })
  else
    let summary := (summarize lf o.so).1
    let error := (summarize lf o.so).2.1
    let trace_id := (summarize lf o.so).2.2
    if truthyStr summary then
      let tracingFailed := lf && trace_id.isNone
      let ts2 := if truthyStr trace_id then sinsert ts mid (trace_id.getD "") else ts
      (ts2, { messageId := mid,
              body := Body.summaryBody (summary.getD "") url tracingFailed,
              markup := if truthyStr trace_id then some Markup.feedbackKb else none })
    else
      (ts, { messageId := mid,
             body := Body.summarizationFailed (pyStr error) url,
             markup := some Markup.retryKb })

/-- Oracle for a pipeline run including the catch-all one level up
(process_message and handle_retry both wrap _process_url in try/except):
editRaises = some e means the edit issued by _process_url raised, so the
except branch edits the message with a generic error body instead. -/
structure RunOracle where
  po : ProcessOracle
  editRaises : Option String
  deriving DecidableEq

/-- A full pipeline run on a placeholder message: _process_url plus the
unexpected-exception handler one level up (main.py lines 204-212 and
229-237). The trace-store writes inside _process_url precede its final
edit, so they survive even when that edit raises. -/
def run_pipeline (lf : Bool) (url : String) (mid : Int) (ts : List (Int × String))
    (o : RunOracle) : List (Int × String) × EditCall :=
  match o.editRaises with
  | some em =>
      ((process_url lf url mid ts o.po).1,
       { messageId := mid, body := Body.unexpectedError em url, markup := some Markup.retryKb })
  | none => process_url lf url mid ts o.po

/-- The trace id a pipeline run obtains and stores: present exactly when
scraping succeeded, the summary was truthy and the summarize call
returned a truthy trace_id. -/
def newTrace (lf : Bool) (o : RunOracle) : Option String :=
  if truthyStr o.po.scrapeResult && truthyStr (summarize lf o.po.so).1
      && truthyStr (summarize lf o.po.so).2.2 then
    (summarize lf o.po.so).2.2
  else none

/-- The process-wide mutable maps of main.py: _url_store, _trace_store
and _pending_note. -/
structure BotState where
  url_store : List (Int × String)
  trace_store : List (Int × String)
  pending_note : List (Nat × Int)
  deriving DecidableEq

/-- The alert shown by handle_retry when the url store has no entry. -/
def notFoundAlert : String := "Original URL not found — please re-post the link."

/-- Result of handle_retry: the new state, the edit calls it issues in
order, and the alert text passed to query.answer (if any). -/
structure RetryRes where
  state : BotState
  edits : List EditCall
  alert : Option String
  deriving DecidableEq

/-- main.handle_retry: look up the original url; if missing (falsy),
alert and stop; else edit to the retrying placeholder and re-run the
pipeline in place on the same message id. -/
def handle_retry (lf : Bool) (st : BotState) (mid : Int) (o : RunOracle) : RetryRes :=
  let url := sget st.url_store mid
  if !truthyStr url then
    { state := st, edits := [], alert := some notFoundAlert }
  else
    let u := url.getD ""
    let r := run_pipeline lf u mid st.trace_store o
    { state := { st with trace_store := r.1 },
      edits := [{ messageId := mid, body := Body.retrying u, markup := none }, r.2],
      alert := none }

/-- The four callback actions parsed from the fb: payload. -/
inductive FbAction
  | up
  | down
  | note
  | noop
  deriving DecidableEq

/-- Value of a langfuse create_score call: BOOLEAN 1/0 or CATEGORICAL text. -/
inductive ScoreValue
  | boolVal (b : Bool)
  | catVal (s : String)
  deriving DecidableEq

/-- One langfuse_client.create_score call. -/
structure ScoreCall where
  trace_id : String
  name : String
  value : ScoreValue
  deriving DecidableEq

/-- Result of handle_feedback: new state, telemetry score calls issued,
the reply-markup edit (some means edit_message_reply_markup was called
with that keyboard), the deep-link url passed to query.answer for the
note flow, and any alert text (handle_feedback never alerts). -/
structure FbRes where
  state : BotState
  scores : List ScoreCall
  newMarkup : Option Markup
  answerUrl : Option String
  alert : Option String
  deriving DecidableEq

/-- The up/down branch of handle_feedback: score if a truthy trace_id is
stored and telemetry is configured, then unconditionally swap the
controls to the rated keyboard. -/
def feedback_rate (lf : Bool) (st : BotState) (mid : Int) (wasPositive : Bool) : FbRes :=
  let tr := sget st.trace_store mid
  { state := st,
    scores :=
      if truthyStr tr && lf then
        [{ trace_id := tr.getD "", name := "user_rating", value := ScoreValue.boolVal wasPositive }]
      else [],
    newMarkup := some (Markup.ratedKb wasPositive),
    answerUrl := none,
    alert := none }

/-- main.handle_feedback for a press on message mid by userId. -/
def handle_feedback (lf : Bool) (st : BotState) (userId : Nat) (mid : Int)
    (action : FbAction) (uname : String) : FbRes :=
  match action with
  | FbAction.noop =>
      { state := st, scores := [], newMarkup := none, answerUrl := none, alert := none }
  | FbAction.note =>
      { state := { st with pending_note := sinsert st.pending_note userId mid },
        scores := [],
        newMarkup := none,
        answerUrl := some ("https://t.me/" ++ uname ++ "?start=note_" ++ toString mid),
        alert := none }
  | FbAction.up => feedback_rate lf st mid true
  | FbAction.down => feedback_rate lf st mid false

/-- Characters stripped by python int(): the Py_UNICODE_ISSPACE set
(ASCII whitespace, the file/group/record/unit separators, NEL, NBSP, and
the Unicode space separators). -/
def isPySpace (c : Char) : Bool :=
  let n := c.toNat
  (9 <= n && n <= 13) || (28 <= n && n <= 32) || n = 133 || n = 160 ||
    n = 5760 || (8192 <= n && n <= 8202) || n = 8232 || n = 8233 ||
    n = 8239 || n = 8287 || n = 12288

/-- The digit-zero codepoint of every Unicode decimal-digit (category Nd)
run, per the Unicode 15.0 table; each run is ten consecutive codepoints.
CPython int() accepts any of these digits, not only ASCII. -/
def ndZeros : List Nat :=
  [0x30, 0x660, 0x6F0, 0x7C0, 0x966, 0x9E6, 0xA66, 0xAE6, 0xB66, 0xBE6,
   0xC66, 0xCE6, 0xD66, 0xDE6, 0xE50, 0xED0, 0xF20, 0x1040, 0x1090, 0x17E0,
   0x1810, 0x1946, 0x19D0, 0x1A80, 0x1A90, 0x1B50, 0x1BB0, 0x1C40, 0x1C50,
   0xA620, 0xA8D0, 0xA900, 0xA9D0, 0xA9F0, 0xAA50, 0xABF0, 0xFF10,
   0x104A0, 0x10D30, 0x11066, 0x110F0, 0x11136, 0x111D0, 0x112F0, 0x11450,
   0x114D0, 0x11650, 0x116C0, 0x11730, 0x118E0, 0x11950, 0x11C50, 0x11D50,
   0x11DA0, 0x11F50, 0x16A60, 0x16AC0, 0x16B50, 0x1D7CE, 0x1D7D8, 0x1D7E2,
   0x1D7EC, 0x1D7F6, 0x1E140, 0x1E2F0, 0x1E4F0, 0x1E950, 0x1FBF0]

/-- Decimal value of a Unicode Nd digit, none for any other character. -/
def pyDigitVal (c : Char) : Option Nat :=
  (ndZeros.find? (fun z => decide (z <= c.toNat) && decide (c.toNat < z + 10))).map
    (fun z => c.toNat - z)

/-- Digits of a python int literal after the sign: Unicode decimal digits
with single underscores allowed only between two digits. -/
def pyDigitsCore : List Char → Nat → Option Nat
  | [], acc => some acc
  | c :: rest, acc =>
    match pyDigitVal c with
    | some d => pyDigitsCore rest (acc * 10 + d)
    | none =>
      if c = '_' then
        match rest with
        | [] => none
        | d :: rest2 =>
          match pyDigitVal d with
          | some dv => pyDigitsCore rest2 (acc * 10 + dv)
          | none => none
      else none

def pyDigits : List Char → Option Nat
  | [] => none
  | c :: rest =>
    match pyDigitVal c with
    | some d => pyDigitsCore rest d
    | none => none

def stripPySpaces (cs : List Char) : List Char :=
  ((cs.dropWhile isPySpace).reverse.dropWhile isPySpace).reverse

/-- Python int(s) on ASCII input: optional surrounding whitespace, an
optional sign, then a digit sequence; None models a ValueError. -/
def pyInt (s : String) : Option Int :=
  match stripPySpaces s.data with
  | '+' :: rest => (pyDigits rest).map (fun n => Int.ofNat n)
  | '-' :: rest => (pyDigits rest).map (fun n => -(Int.ofNat n))
  | rest => (pyDigits rest).map (fun n => Int.ofNat n)

/-- args[0].startswith("note_") combined with removeprefix("note_"):
some token when the argument carries the deep-link tag. -/
def noteToken (a : String) : Option String :=
  match a.data with
  | 'n' :: 'o' :: 't' :: 'e' :: '_' :: rest => some (String.mk rest)
  | _ => none

/-- The prompt replied by handle_start on a well-formed deep link. -/
def notePrompt : String := "Got it! Please type your feedback for this summary:"

/-- main.handle_start: on a note_<int> deep-link argument, open the
pending note slot and prompt; on anything else do nothing. Returns the
new state and the replies sent. -/
def handle_start (st : BotState) (userId : Nat) (args : List String) :
    BotState × List String :=
  match args with
  | [] => (st, [])
  | a :: _ =>
    match noteToken a with
    | none => (st, [])
    | some tok =>
      match pyInt tok with
      | none => (st, [])
      | some m => ({ st with pending_note := sinsert st.pending_note userId m }, [notePrompt])

/-- Result of handle_private_message: new state, score calls, replies. -/
structure PmRes where
  state : BotState
  scores : List ScoreCall
  replies : List String
  deriving DecidableEq

/-- The acknowledgment replied after a note is collected. -/
def thanksReply : String := "Thanks for the feedback! It\x27s been recorded. ✅"

/-- main.handle_private_message: pop the pending note slot; if empty,
ignore silently; else forward the text as a user_comment score when a
truthy trace_id is stored and telemetry is configured, and acknowledge. -/
def handle_private_message (lf : Bool) (st : BotState) (userId : Nat) (text : String) : PmRes :=
  match sget st.pending_note userId with
  | none => { state := st, scores := [], replies := [] }
  | some mid =>
    let st2 := { st with pending_note := serase st.pending_note userId }
    let tr := sget st2.trace_store mid
    { state := st2,
      scores :=
        if truthyStr tr && lf then
          [{ trace_id := tr.getD "", name := "user_comment", value := ScoreValue.catVal text }]
        else [],
      replies := [thanksReply] }

theorem serase_cons {α β : Type} [DecidableEq α] (a : α × β) (l : List (α × β)) (k : α) :
    serase (a :: l) k = if a.1 = k then serase l k else a :: serase l k := by
  by_cases h : a.1 = k <;> simp [serase, List.filter_cons, h]

theorem keyCount_cons {α β : Type} [DecidableEq α] (a : α × β) (l : List (α × β)) (k2 : α) :
    keyCount (a :: l) k2 = (if a.1 = k2 then 1 else 0) + keyCount l k2 := by
  by_cases h : a.1 = k2
  · simp [keyCount, List.filter_cons, h]
    omega
  · simp [keyCount, List.filter_cons, h]

theorem sget_sinsert_self {α β : Type} [DecidableEq α] (l : List (α × β)) (k : α) (v : β) :
    sget (sinsert l k v) k = some v := by
  simp [sget, sinsert, List.find?_cons]

theorem sget_serase_self {α β : Type} [DecidableEq α] (l : List (α × β)) (k : α) :
    sget (serase l k) k = none := by
  induction l with
  | nil => simp [sget, serase]
  | cons a l ih =>
    rw [serase_cons]
    by_cases h : a.1 = k
    · rw [if_pos h]
      exact ih
    · rw [if_neg h]
      simpa [sget, List.find?_cons, h] using ih

theorem keyCount_serase_self {α β : Type} [DecidableEq α] (l : List (α × β)) (k : α) :
    keyCount (serase l k) k = 0 := by
  induction l with
  | nil => simp [keyCount, serase]
  | cons a l ih =>
    rw [serase_cons]
    by_cases h : a.1 = k
    · rw [if_pos h]
      exact ih
    · rw [if_neg h, keyCount_cons, if_neg h]
      simpa using ih

theorem keyCount_serase_le {α β : Type} [DecidableEq α] (l : List (α × β)) (k k2 : α) :
    keyCount (serase l k) k2 ≤ keyCount l k2 := by
  induction l with
  | nil => simp [keyCount, serase]
  | cons a l ih =>
    rw [serase_cons]
    by_cases h : a.1 = k
    · rw [if_pos h, keyCount_cons]
      by_cases h2 : a.1 = k2 <;> simp [h2] <;> omega
    · rw [if_neg h, keyCount_cons, keyCount_cons]
      by_cases h2 : a.1 = k2 <;> simp [h2] <;> omega

theorem keyCount_sinsert_self {α β : Type} [DecidableEq α] (l : List (α × β)) (k : α) (v : β) :
    keyCount (sinsert l k v) k = 1 := by
  simp [sinsert, keyCount_cons, keyCount_serase_self]

theorem keyCount_sinsert_other {α β : Type} [DecidableEq α] (l : List (α × β)) (k k2 : α)
    (v : β) (h : k2 ≠ k) : keyCount (sinsert l k v) k2 ≤ keyCount l k2 := by
  have hk : ¬(k = k2) := fun e => h e.symm
  calc keyCount (sinsert l k v) k2
      = keyCount (serase l k) k2 := by simp [sinsert, keyCount_cons, hk]
    _ ≤ keyCount l k2 := keyCount_serase_le l k k2

theorem run_pipeline_fst_of_trace (lf : Bool) (url : String) (mid : Int)
    (ts : List (Int × String)) (o : RunOracle) (t : String) (h : newTrace lf o = some t) :
    (run_pipeline lf url mid ts o).1 = sinsert ts mid t := by
  rcases o with ⟨⟨scrape, so⟩, er⟩
  simp only [newTrace] at h
  by_cases h1 : truthyStr scrape
  · by_cases h2 : truthyStr (summarize lf so).1
    · cases h3 : (summarize lf so).2.2 with
      | none => simp [h1, h2, h3] at h
      | some t2 =>
        by_cases h4 : t2 = ""
        · simp [h1, h2, h3, h4, truthyStr] at h
        · have ht : truthyStr (some t2) = true := by simp [truthyStr, h4]
          simp [h1, h2, h3, ht] at h
          subst h
          cases er <;> simp [run_pipeline, process_url, h1, h2, h3, ht]
    · simp [h1, h2] at h
  · simp [h1] at h

theorem run_pipeline_fst_of_none (lf : Bool) (url : String) (mid : Int)
    (ts : List (Int × String)) (o : RunOracle) (h : newTrace lf o = none) :
    (run_pipeline lf url mid ts o).1 = ts := by
  rcases o with ⟨⟨scrape, so⟩, er⟩
  simp only [newTrace] at h
  by_cases h1 : truthyStr scrape
  · by_cases h2 : truthyStr (summarize lf so).1
    · cases h3 : (summarize lf so).2.2 with
      | none =>
        have ht : truthyStr (none : Option String) = false := by simp [truthyStr]
        cases er <;> simp [run_pipeline, process_url, h1, h2, h3, ht]
      | some t2 =>
        by_cases h4 : t2 = ""
        · have ht : truthyStr (some t2) = false := by simp [truthyStr, h4]
          cases er <;> simp [run_pipeline, process_url, h1, h2, h3, ht]
        · have ht : truthyStr (some t2) = true := by simp [truthyStr, h4]
          simp [h1, h2, h3, ht] at h
    · cases er <;> simp [run_pipeline, process_url, h1, h2]
  · cases er <;> simp [run_pipeline, process_url, h1]

theorem run_pipeline_edit_shape (lf : Bool) (url : String) (mid : Int)
    (ts : List (Int × String)) (o : RunOracle) :
    (run_pipeline lf url mid ts o).2.messageId = mid
    ∧ bodyUrl (run_pipeline lf url mid ts o).2.body = url := by
  rcases o with ⟨⟨scrape, so⟩, er⟩
  cases er with
  | some em => simp [run_pipeline, bodyUrl]
  | none =>
    by_cases h1 : truthyStr scrape
    · by_cases h2 : truthyStr (summarize lf so).1
      · by_cases h3 : truthyStr (summarize lf so).2.2 <;>
          simp [run_pipeline, process_url, h1, h2, h3, bodyUrl]
      · simp [run_pipeline, process_url, h1, h2, bodyUrl]
    · simp [run_pipeline, process_url, h1, bodyUrl]


/-- C1: a pipeline run attaches the rating (feedback) keyboard to the edit it
performs if and only if the run rendered a success body and a non-empty
trace_id was obtained from summarize for that run and stored in the trace
store under the message identity; in particular failure bodies never carry
the rating keyboard. -/
theorem claim_C1_rating_control_iff_trace (lf : Bool) (url : String) (mid : Int)
    (ts : List (Int × String)) (o : RunOracle) :
    (run_pipeline lf url mid ts o).2.markup = some Markup.feedbackKb
      ↔ ((∃ s tf, (run_pipeline lf url mid ts o).2.body = Body.summaryBody s url tf)
          ∧ ∃ t, t ≠ "" ∧ (summarize lf o.po.so).2.2 = some t
              ∧ sget (run_pipeline lf url mid ts o).1 mid = some t) := by
  rcases o with ⟨⟨scrape, so⟩, er⟩
  cases er with
  | some em => simp [run_pipeline]
  | none =>
    by_cases h1 : truthyStr scrape
    · by_cases h2 : truthyStr (summarize lf so).1
      · cases h3 : (summarize lf so).2.2 with
        | none =>
          have ht : truthyStr (none : Option String) = false := by simp [truthyStr]
          simp [run_pipeline, process_url, h1, h2, h3, ht]
        | some t2 =>
          by_cases h4 : t2 = ""
          · have ht : truthyStr (some t2) = false := by simp [truthyStr, h4]
            constructor
            · intro hcontra
              simp [run_pipeline, process_url, h1, h2, h3, ht] at hcontra
            · rintro ⟨-, t, htne, hteq, -⟩
              have h5 : t2 = t := by injection hteq
              exact absurd (h5 ▸ h4) htne
          · have ht : truthyStr (some t2) = true := by simp [truthyStr, h4]
            have hnt : newTrace lf (RunOracle.mk (ProcessOracle.mk scrape so) none) = some t2 := by
              simp [newTrace, h1, h2, h3, ht]
            have hst := run_pipeline_fst_of_trace lf url mid ts
              (RunOracle.mk (ProcessOracle.mk scrape so) none) t2 hnt
            constructor
            · intro _
              refine ⟨?_, t2, h4, rfl, ?_⟩
              · refine ⟨(summarize lf so).1.getD "", lf && (summarize lf so).2.2.isNone, ?_⟩
                simp [run_pipeline, process_url, h1, h2, h3, ht]
              · rw [hst]
                exact sget_sinsert_self ts mid t2
            · intro _
              simp [run_pipeline, process_url, h1, h2, h3, ht]
      · simp [run_pipeline, process_url, h1, h2]
    · simp [run_pipeline, process_url, h1]

/-- C2 counterexample: after a retry whose scrape fails, the prior trace_id
t1 is still associated with the message in the trace store, refuting the
clause that on any retry outcome the prior trace_id no longer remains
associated with the message. -/
theorem claim_C2_counterexample :
    (handle_retry true (BotState.mk [((5 : Int), "http://a")] [((5 : Int), "t1")] []) 5
        (RunOracle.mk
          (ProcessOracle.mk none
            (SummarizeOracle.mk none (GenResult.err (GenException.unexpected "boom")) true))
          none)).edits.length = 2
    ∧ sget (handle_retry true (BotState.mk [((5 : Int), "http://a")] [((5 : Int), "t1")] []) 5
        (RunOracle.mk
          (ProcessOracle.mk none
            (SummarizeOracle.mk none (GenResult.err (GenException.unexpected "boom")) true))
          none)).state.trace_store (5 : Int) = some "t1" := by
  decide

/-- C2 amended: a retry on a message with a stored url reuses that url
unchanged (both edits name it and the url store is untouched), and the
trace_id obtained by the retry run replaces the prior association exactly
when the run obtained one (hence it is fresh whenever the telemetry
collaborator issues fresh ids); when the retry run obtains no truthy
trace_id the prior trace_id remains associated with the message. -/
theorem claim_C2_amended (lf : Bool) (st : BotState) (mid : Int) (o : RunOracle) (url : String)
    (h : sget st.url_store mid = some url) (hne : url ≠ "") :
    (handle_retry lf st mid o).state.url_store = st.url_store
    ∧ (handle_retry lf st mid o).edits.map (fun e => bodyUrl e.body) = [url, url]
    ∧ (handle_retry lf st mid o).edits.head? =
        some { messageId := mid, body := Body.retrying url, markup := none }
    ∧ (∀ t, newTrace lf o = some t →
        sget (handle_retry lf st mid o).state.trace_store mid = some t)
    ∧ (newTrace lf o = none →
        (handle_retry lf st mid o).state.trace_store = st.trace_store) := by
  have ht2 : truthyStr (some url) = true := by simp [truthyStr, hne]
  have hb := run_pipeline_edit_shape lf url mid st.trace_store o
  refine ⟨?_, ?_, ?_, ?_, ?_⟩
  · simp [handle_retry, h, ht2]
  · have hr : bodyUrl (Body.retrying url) = url := rfl
    simp [handle_retry, h, ht2, hr, hb.2]
  · simp [handle_retry, h, ht2]
  · intro t hT
    simp [handle_retry, h, ht2,
      run_pipeline_fst_of_trace lf url mid st.trace_store o t hT, sget_sinsert_self]
  · intro hN
    simp [handle_retry, h, ht2,
      run_pipeline_fst_of_none lf url mid st.trace_store o hN]

/-- C2 witness: the amended theorem applied at a concrete retried message. -/
theorem claim_C2_amended_witness :
    sget (BotState.mk [((5 : Int), "http://a")] [((5 : Int), "t1")] []).url_store 5
      = some "http://a"
    ∧ (handle_retry true (BotState.mk [((5 : Int), "http://a")] [((5 : Int), "t1")] []) 5
        (RunOracle.mk
          (ProcessOracle.mk (some "T") (SummarizeOracle.mk (some "t2") (GenResult.ok "S") true))
          none)).state.url_store
      = (BotState.mk [((5 : Int), "http://a")] [((5 : Int), "t1")] []).url_store :=
  ⟨by decide,
    (claim_C2_amended true (BotState.mk [((5 : Int), "http://a")] [((5 : Int), "t1")] []) 5
      (RunOracle.mk
        (ProcessOracle.mk (some "T") (SummarizeOracle.mk (some "t2") (GenResult.ok "S") true))
        none)
      "http://a" (by decide) (by decide)).1⟩

/-- C3 code bug demonstration: handle_feedback has no duplicate guard. With
a stored trace t1 and telemetry configured, a first fb:up request forwards a
user_rating score and swaps the controls to the rated keyboard, yet a second
identical fb:up request for the now already-rated message (the handler
mutated no state) forwards a second user_rating score instead of
re-acknowledging without re-scoring. -/
theorem claim_C3_double_score :
    (handle_feedback true (BotState.mk [] [((5 : Int), "t1")] []) 1 5 FbAction.up "bot").newMarkup
      = some (Markup.ratedKb true)
    ∧ (handle_feedback true (BotState.mk [] [((5 : Int), "t1")] []) 1 5 FbAction.up "bot").scores
      = [ScoreCall.mk "t1" "user_rating" (ScoreValue.boolVal true)]
    ∧ (handle_feedback true
        (handle_feedback true (BotState.mk [] [((5 : Int), "t1")] []) 1 5 FbAction.up "bot").state
        1 5 FbAction.up "bot").scores
      = [ScoreCall.mk "t1" "user_rating" (ScoreValue.boolVal true)] := by
  decide

/-- C4 counterexample: a rating press on a message with no trace store entry
still edits the reply markup to the rated keyboard, refuting the clause that
the inline controls are left unchanged. -/
theorem claim_C4_counterexample :
    sget (BotState.mk [] [] []).trace_store (5 : Int) = none
    ∧ (handle_feedback true (BotState.mk [] [] []) 1 5 FbAction.up "bot").newMarkup
        = some (Markup.ratedKb true)
    ∧ (handle_feedback true (BotState.mk [] [] []) 1 5 FbAction.up "bot").scores = [] := by
  decide

/-- C4 amended: on a rating press for a message whose trace store entry is
absent, the handler forwards nothing to telemetry, mutates no state, shows
no alert, and swaps the inline controls to the rated keyboard. -/
theorem claim_C4_amended (lf : Bool) (st : BotState) (u : Nat) (mid : Int) (uname : String)
    (b : Bool) (h : sget st.trace_store mid = none) :
    handle_feedback lf st u mid (if b then FbAction.up else FbAction.down) uname
      = FbRes.mk st [] (some (Markup.ratedKb b)) none none := by
  cases b <;> simp [handle_feedback, feedback_rate, h, truthyStr]

/-- C4 witness: the amended theorem applied at a concrete unrated message. -/
theorem claim_C4_amended_witness :
    sget (BotState.mk [] [] []).trace_store (7 : Int) = none
    ∧ handle_feedback false (BotState.mk [] [] []) 2 7 FbAction.down "bot"
        = FbRes.mk (BotState.mk [] [] []) [] (some (Markup.ratedKb false)) none none :=
  ⟨by decide, claim_C4_amended false (BotState.mk [] [] []) 2 7 "bot" false (by decide)⟩

/-- C5: summarize returns exactly one of a summary or a classified error,
its trace identifier is None whenever telemetry is absent or any telemetry
call failed, and the summary/error outcome depends only on the generation
result, never on the telemetry oracle. -/
theorem claim_C5_summarize_outcomes (lf lf2 : Bool) (o o2 : SummarizeOracle)
    (h : o.genResult = o2.genResult) :
    ((summarize lf o).1.isSome = !(summarize lf o).2.1.isSome)
    ∧ (lf = false → (summarize lf o).2.2 = none)
    ∧ (o.traceSetup = none → (summarize lf o).2.2 = none)
    ∧ (o.genEndOk = false → (summarize lf o).2.2 = none)
    ∧ (summarize lf o).1 = (summarize lf2 o2).1
    ∧ (summarize lf o).2.1 = (summarize lf2 o2).2.1 := by
  rcases o with ⟨ts1, gr, ge1⟩
  rcases o2 with ⟨ts2, gr2, ge2⟩
  dsimp only at h
  subst h
  cases gr with
  | ok s =>
    cases lf <;> cases lf2 <;> cases ts1 <;> cases ts2 <;> cases ge1 <;> cases ge2 <;>
      simp [summarize]
  | err ex =>
    cases ex <;> cases lf <;> cases lf2 <;> cases ts1 <;> cases ts2 <;> simp [summarize]

/-- C5 witness: the theorem applied at a concrete generation outcome. -/
theorem claim_C5_witness :
    (SummarizeOracle.mk (some "t") (GenResult.ok "S") true).genResult
      = (SummarizeOracle.mk none (GenResult.ok "S") false).genResult
    ∧ (summarize true (SummarizeOracle.mk (some "t") (GenResult.ok "S") true)).1
      = (summarize false (SummarizeOracle.mk none (GenResult.ok "S") false)).1 :=
  ⟨rfl, (claim_C5_summarize_outcomes true false
      (SummarizeOracle.mk (some "t") (GenResult.ok "S") true)
      (SummarizeOracle.mk none (GenResult.ok "S") false) rfl).2.2.2.2.1⟩

/-- C6: every pipeline run, including the unexpected-exception path caught
one level up, edits the placeholder message to exactly one of a success body
or a failure body, and the Retry keyboard is attached if and only if the
outcome was a failure. -/
theorem claim_C6_exactly_one_body (lf : Bool) (url : String) (mid : Int)
    (ts : List (Int × String)) (o : RunOracle) :
    (run_pipeline lf url mid ts o).2.messageId = mid
    ∧ isSuccessBody (run_pipeline lf url mid ts o).2.body
        = !isFailureBody (run_pipeline lf url mid ts o).2.body
    ∧ ((run_pipeline lf url mid ts o).2.markup = some Markup.retryKb
        ↔ isFailureBody (run_pipeline lf url mid ts o).2.body = true) := by
  rcases o with ⟨⟨scrape, so⟩, er⟩
  cases er with
  | some em => simp [run_pipeline, isSuccessBody, isFailureBody]
  | none =>
    by_cases h1 : truthyStr scrape
    · by_cases h2 : truthyStr (summarize lf so).1
      · by_cases h3 : truthyStr (summarize lf so).2.2 <;>
          simp [run_pipeline, process_url, h1, h2, h3, isSuccessBody, isFailureBody]
      · simp [run_pipeline, process_url, h1, h2, isSuccessBody, isFailureBody]
    · simp [run_pipeline, process_url, h1, isSuccessBody, isFailureBody]

/-- C7: a retry press on a message identity with no (truthy) url store entry
yields exactly the not-found alert, leaves the whole state unchanged and
performs no edits, hence no pipeline run. -/
theorem claim_C7_retry_unknown (lf : Bool) (st : BotState) (mid : Int) (o : RunOracle)
    (h : truthyStr (sget st.url_store mid) = false) :
    handle_retry lf st mid o = RetryRes.mk st [] (some notFoundAlert) := by
  simp [handle_retry, h]

/-- C7 witness: the theorem applied at an empty url store. -/
theorem claim_C7_witness :
    truthyStr (sget (BotState.mk [] [] []).url_store (1 : Int)) = false
    ∧ handle_retry true (BotState.mk [] [] []) 1
        (RunOracle.mk
          (ProcessOracle.mk none (SummarizeOracle.mk none (GenResult.ok "S") true)) none)
      = RetryRes.mk (BotState.mk [] [] []) [] (some notFoundAlert) :=
  ⟨by decide, claim_C7_retry_unknown true (BotState.mk [] [] []) 1
    (RunOracle.mk
      (ProcessOracle.mk none (SummarizeOracle.mk none (GenResult.ok "S") true)) none)
    (by decide)⟩

/-- C8: a private free-text message from a sender with no pending note slot
is a no-op: no telemetry call, no state mutation, no reply. -/
theorem claim_C8_private_noop (lf : Bool) (st : BotState) (u : Nat) (text : String)
    (h : sget st.pending_note u = none) :
    handle_private_message lf st u text = PmRes.mk st [] [] := by
  simp [handle_private_message, h]

/-- C8 witness: the theorem applied at an empty pending-note map. -/
theorem claim_C8_witness :
    sget (BotState.mk [] [] []).pending_note 3 = none
    ∧ handle_private_message true (BotState.mk [] [] []) 3 "hello"
        = PmRes.mk (BotState.mk [] [] []) [] [] :=
  ⟨by decide, claim_C8_private_noop true (BotState.mk [] [] []) 3 "hello" (by decide)⟩

/-- C9: the pending note map keeps at most one slot per user identity; a
note press or a well-formed deep-link open by a user overwrites that user's
slot with the new target message identity; and the slot is gone the moment
the user's next private free-text message is handled, whatever the trace
store holds (so regardless of whether forwarding occurs). -/
theorem claim_C9_pending_note_slot (lf : Bool) (st : BotState) (u : Nat) (mid2 : Int)
    (uname a tok : String) (m : Int) (text : String)
    (hstrip : noteToken a = some tok) (hparse : pyInt tok = some m)
    (hinv : ∀ u2, keyCount st.pending_note u2 ≤ 1) :
    sget (handle_feedback lf st u mid2 FbAction.note uname).state.pending_note u = some mid2
    ∧ sget (handle_start st u [a]).1.pending_note u = some m
    ∧ (∀ u2, keyCount
        (handle_feedback lf st u mid2 FbAction.note uname).state.pending_note u2 ≤ 1)
    ∧ (∀ u2, keyCount (handle_start st u [a]).1.pending_note u2 ≤ 1)
    ∧ sget (handle_private_message lf st u text).state.pending_note u = none
    ∧ (∀ u2, keyCount
        (handle_private_message lf st u text).state.pending_note u2 ≤ 1) := by
  have hfb : (handle_feedback lf st u mid2 FbAction.note uname).state.pending_note
      = sinsert st.pending_note u mid2 := rfl
  have hhs : (handle_start st u [a]).1.pending_note = sinsert st.pending_note u m := by
    simp [handle_start, hstrip, hparse]
  refine ⟨?_, ?_, ?_, ?_, ?_, ?_⟩
  · rw [hfb]
    exact sget_sinsert_self st.pending_note u mid2
  · rw [hhs]
    exact sget_sinsert_self st.pending_note u m
  · intro u2
    rw [hfb]
    by_cases hu : u2 = u
    · subst hu
      simp [keyCount_sinsert_self]
    · exact le_trans (keyCount_sinsert_other st.pending_note u u2 mid2 hu) (hinv u2)
  · intro u2
    rw [hhs]
    by_cases hu : u2 = u
    · subst hu
      simp [keyCount_sinsert_self]
    · exact le_trans (keyCount_sinsert_other st.pending_note u u2 m hu) (hinv u2)
  · cases hp : sget st.pending_note u with
    | none => simp [handle_private_message, hp]
    | some mid => simp [handle_private_message, hp, sget_serase_self]
  · intro u2
    cases hp : sget st.pending_note u with
    | none => simpa [handle_private_message, hp] using hinv u2
    | some mid =>
      have h1 := keyCount_serase_le st.pending_note u u2
      simp only [handle_private_message, hp]
      exact le_trans h1 (hinv u2)

/-- C9 witness: the theorem applied at a concrete user and message. -/
theorem claim_C9_witness :
    sget (handle_feedback true (BotState.mk [] [] []) 1 9 FbAction.note "bot").state.pending_note 1
      = some (9 : Int) :=
  (claim_C9_pending_note_slot true (BotState.mk [] [] []) 1 9 "bot" "note_3" "3" 3 "txt"
    (by decide) (by decide) (fun u2 => by simp [keyCount])).1

/-- C10: a /start deep-link argument of the form note_<x> whose token <x>
does not parse as a python integer makes the start handler return with no
pending slot created and no reply, while a parseable token creates the slot
and sends the prompt reply. -/
theorem claim_C10_malformed_deeplink (st : BotState) (u : Nat) (a : String)
    (rest : List String) (tok : String) (hstrip : noteToken a = some tok) :
    (pyInt tok = none → handle_start st u (a :: rest) = (st, []))
    ∧ (∀ m : Int, pyInt tok = some m →
        handle_start st u (a :: rest)
          = ({ st with pending_note := sinsert st.pending_note u m }, [notePrompt])) := by
  constructor
  · intro hp
    simp [handle_start, hstrip, hp]
  · intro m hp
    simp [handle_start, hstrip, hp]

/-- C10 witness: the theorem applied at a concrete malformed deep link. -/
theorem claim_C10_witness :
    noteToken "note_abc" = some "abc"
    ∧ handle_start (BotState.mk [] [] []) 1 ["note_abc"] = (BotState.mk [] [] [], []) :=
  ⟨by decide,
    (claim_C10_malformed_deeplink (BotState.mk [] [] []) 1 "note_abc" [] "abc"
      (by decide)).1 (by decide)⟩
